import Mathlib

/-!
Shallow embedding of `src/client.ts` from the event-bus-client repository.

The repository file contains two snapshots ("variants") of the same class:
variant 1 (lines 1-197) and variant 2 (lines 198-423). Where their behaviour
differs the embedding keeps both, in namespaces `V1` and `V2`; definitions
identical in the two variants are shared.

Conventions of the embedding:
  - JavaScript `undefined`/`null` slots are `Option`.
  - `Record<string, unknown>` values are the inductive `Json`.
  - An opaque consumer callback is identified by a natural number; invoking
    it is recorded as an `Invocation` event carrying its arguments.
  - `console.error` reports are collected as a list of strings.
  - JS numbers inside `ClientOptions` are a type parameter `α`: the code
    only moves them between fields, never computes with them.
-/

namespace EventBusClient

/-- JSON-like runtime values (`Record<string, unknown>` in the source). -/
inductive Json where
  | str : String → Json
  | num : Int → Json
  | obj : List (String × Json) → Json

/-- `enum UpdateType` with the three string values POST, PUT, DELETE
(identical in both variants). -/
inductive UpdateType where
  | POST
  | PUT
  | DELETE
deriving DecidableEq

/-- `interface BusError { failureCode: number; failureType: string; message: string }`. -/
structure BusError where
  failureCode : Int
  failureType : String
  message : String

/-- `interface UpdateMessage { type: UpdateType; id: number; content: Record<string, unknown> }`. -/
structure UpdateMessage where
  type : UpdateType
  id : Int
  content : Json

/-- `interface BusMessage { type: string; address: string; headers: ...; body: UpdateMessage }`. -/
structure BusMessage where
  type : String
  address : String
  headers : Json
  body : UpdateMessage

/-- `interface ClientOptions` with its six numeric fields. The numeric type is a
parameter because the client only forwards these values. -/
structure ClientOptions (α : Type) where
  pingInterval : α
  maxReconnectAttempts : α
  minReconnectDelay : α
  maxReconnectDelay : α
  reconnectExponentialBackoffFactor : α
  randomizationFactor : α

/-- The configuration record handed to `new EventBus(url, options)`; field names
are the exact wire names built inside `connect()` in both variants. -/
structure VertxBusOptions (α : Type) where
  vertxbus_ping_interval : α
  vertxbus_reconnect_attempts_max : α
  vertxbus_reconnect_delay_min : α
  vertxbus_reconnect_delay_max : α
  vertxbus_reconnect_exponent : α
  vertxbus_randomization_factor : α

/-- `const options = this.options && { vertxbus_ping_interval: ..., ... }`
(variant 1 lines 160-167, variant 2 lines 369-376): `undefined` stays
`undefined`, a present record is mapped field by field. -/
def busOptions {α : Type} (options : Option (ClientOptions α)) :
    Option (VertxBusOptions α) :=
  options.map fun o =>
    { vertxbus_ping_interval := o.pingInterval
      vertxbus_reconnect_attempts_max := o.maxReconnectAttempts
      vertxbus_reconnect_delay_min := o.minReconnectDelay
      vertxbus_reconnect_delay_max := o.maxReconnectDelay
      vertxbus_reconnect_exponent := o.reconnectExponentialBackoffFactor
      vertxbus_randomization_factor := o.randomizationFactor }

/-- The mutable fields of a `Client` object. `company` is `Option String`
because `create` of variant 1 can store an `undefined` company (see
`Client.create`); a defined company `c` is `some c`. `bus` records whether a
transport handle is held; the registered callback is an identity. -/
structure ClientState (α : Type) where
  url : String
  company : Option String
  options : Option (ClientOptions α)
  bus : Option Unit
  onItemUpdateCallback : Option Nat

/-- Variant 2 constructor (lines 354-359):
`this.url = url + "?token=" + token; this.company = company;
this.options = options; this.onItemUpdateCallback = null` — `bus` is left
unassigned (`undefined`). A total pure function: no network, no failure. -/
def Client.construct {α : Type} (url token company : String)
    (options : Option (ClientOptions α)) : ClientState α :=
  { url := url ++ "?token=" ++ token
    company := some company
    options := options
    bus := none
    onItemUpdateCallback := none }

/-- An invocation of the consumer callback, recording which callback ran and
the four arguments `(type, id, content, error)` it received. -/
structure Invocation where
  callback : Nat
  type : UpdateType
  id : Int
  content : Option Json
  error : Option BusError

/-- Variant 1 message handler (lines 176-180):
`this.onItemUpdateCallback && this.onItemUpdateCallback(body.type, body.id,
body.content, error)` — with no registered callback the conjunction
short-circuits and nothing at all happens. Returns the callback invocations
and the `console.error` reports the handler emits. -/
def V1.itemUpdateHandler (registered : Option Nat) (error : Option BusError)
    (message : BusMessage) : List Invocation × List String :=
  let body := message.body
  match registered with
  | some cb => ([⟨cb, body.type, body.id, some body.content, error⟩], [])
  | none => ([], [])

/-- Variant 2 message handler (lines 383-390): invokes the registered callback
with `(body.type, body.id, body.content, error)`, and with no registered
callback runs `console.error` with "No callback was registered for item update". -/
def V2.itemUpdateHandler (registered : Option Nat) (error : Option BusError)
    (message : BusMessage) : List Invocation × List String :=
  let body := message.body
  match registered with
  | some cb => ([⟨cb, body.type, body.id, some body.content, error⟩], [])
  | none => ([], ["No callback was registered for item update"])

/-- `onItemUpdate(callback) { this.onItemUpdateCallback = callback }`
(variant 1 lines 190-192, variant 2 lines 416-418): a single slot,
unconditionally overwritten. -/
def ClientState.onItemUpdate {α : Type} (st : ClientState α) (cb : Nat) :
    ClientState α :=
  { st with onItemUpdateCallback := some cb }

/-- The channel name built in both variants:
`` `items.updates.${this.company}` ``. -/
def updatesChannel (company : String) : String :=
  "items.updates." ++ company

/-- Observable actions performed by the `onopen` hook. -/
inductive BusAction where
  | resolveConnect
  | registerHandler (address : String)
deriving DecidableEq

/-- Variant 1 `onopen` hook (lines 171-182): it calls `resolve()` FIRST and
only then `bus.registerHandler` on the tenant channel. -/
def V1.onopenActions (company : String) : List BusAction :=
  [.resolveConnect, .registerHandler (updatesChannel company)]

/-- Variant 2 `onopen` hook (lines 380-393): it calls
`this.bus.registerHandler` on the tenant channel first and
`resolve()` afterwards. -/
def V2.onopenActions (company : String) : List BusAction :=
  [.registerHandler (updatesChannel company), .resolveConnect]

/-- The ordering property claimed for `connect()`: every resolution of the
returned promise is preceded, in the sequence of actions already performed,
by the registration of a handler on the tenant channel. -/
def resolvesOnlyAfterRegistration (company : String)
    (actions : List BusAction) : Prop :=
  ∀ i : Nat, actions.get? i = some BusAction.resolveConnect →
    ∃ j : Nat, j < i ∧
      actions.get? j = some (BusAction.registerHandler (updatesChannel company))

/-- How many times the `onopen` hook calls `resolve()`. -/
def resolveCount (actions : List BusAction) : Nat :=
  (actions.filter fun a =>
    match a with
    | BusAction.resolveConnect => true
    | BusAction.registerHandler _ => false).length

/-- Observable setup steps performed synchronously inside the `connect()`
promise executor, before the transport reports open. -/
inductive SetupAction (α : Type) where
  | constructBus (url : String) (config : Option (VertxBusOptions α))
  | enableReconnect (value : Bool)
  | installOnopenHook

/-- The setup sequence of `connect()`, identical in both variants
(variant 1 lines 160-171, variant 2 lines 369-380): build the config record
from `this.options`, call `new EventBus(this.url, options)`, call
`bus.enableReconnect(true)`, assign the `onopen` hook. -/
def connectSetupActions {α : Type} (st : ClientState α) : List (SetupAction α) :=
  [.constructBus st.url (busOptions st.options),
   .enableReconnect true,
   .installOnopenHook]

/-- The state of the promise returned by `connect()`, observed after the
promise executor has run but before any `onopen` notification. -/
inductive PromiseOutcome where
  | pending
  | resolved
  | rejected (error : String)
deriving DecidableEq

/-- Variant 1 `connect()` (lines 158-184): the executor has no `try`/`catch`,
but a JS `Promise` executor that throws before settling causes the `Promise`
constructor itself to reject the promise with the thrown value (ECMAScript
`CreatePromise`/executor semantics); if setup completes the promise stays
pending until `onopen` fires. `setupThrow` is the error thrown during setup,
if any. -/
def V1.connectOutcome (setupThrow : Option String) : PromiseOutcome :=
  match setupThrow with
  | some e => .rejected e
  | none => .pending

/-- Variant 2 `connect()` (lines 366-398): the executor wraps setup in
`try { ... } catch (error) { reject(error) }`; if setup completes the promise
stays pending until `onopen` fires. -/
def V2.connectOutcome (setupThrow : Option String) : PromiseOutcome :=
  match setupThrow with
  | some e => .rejected e
  | none => .pending

/-- Observable outcome of a `disconnect()` call. -/
inductive DisconnectOutcome where
  | closedBus
  | reportedNotConnected
  | crashed (message : String)
deriving DecidableEq

/-- Variant 1 `disconnect()` (lines 186-188): `this.bus.close()` with no
guard — when `this.bus` is `undefined` the property access throws a
`TypeError`. -/
def V1.disconnect (bus : Option Unit) : DisconnectOutcome :=
  match bus with
  | some _ => .closedBus
  | none => .crashed "TypeError: cannot read properties of undefined"

/-- Variant 2 `disconnect()` (lines 403-409): `if (this.bus) { this.bus.close() }
else ... }` where the else branch runs `console.error` with "The client is not connected". -/
def V2.disconnect (bus : Option Unit) : DisconnectOutcome :=
  match bus with
  | some _ => .closedBus
  | none => .reportedNotConnected

/-- The decrypted claims payload, as far as the client inspects it: only the
`company` claim is read; `none` models an absent claim. -/
structure JwtPayload where
  company : Option String

/-- Result of `jwtDecrypt(token, key, issuer)`: either the claims payload, or
a thrown error (failed decryption, bad signature, or issuer mismatch). -/
inductive DecryptOutcome where
  | ok (payload : JwtPayload)
  | failed (error : String)

/-- Variant 1 `Client.create` (lines 149-156): awaits `jwtDecrypt` (a thrown
error propagates and rejects creation), then reads `payload.company as string`
— a compile-time cast with NO runtime check — and calls the private
constructor `new Client(url + "?token=" + token, company, options)`, which
stores its three arguments and leaves `bus` and the callback unassigned. -/
def Client.create {α : Type} (url token : String)
    (options : Option (ClientOptions α)) (decrypt : DecryptOutcome) :
    Except String (ClientState α) :=
  match decrypt with
  | .failed e => .error e
  | .ok payload =>
      .ok { url := url ++ "?token=" ++ token
            company := payload.company
            options := options
            bus := none
            onItemUpdateCallback := none }

/-! Concrete sample values used in scenario conjuncts, counterexamples and
witnesses. -/

/-- The scenario message of the spec: envelope
`{body: {type: PUT, id: 42, content: {status: ok}}}` delivered on the
channel of company "acme". -/
def acmePutMessage : BusMessage :=
  { type := "rec"
    address := updatesChannel "acme"
    headers := Json.obj []
    body := { type := UpdateType.PUT
              id := 42
              content := Json.obj [("status", Json.str "ok")] } }

/-- The DELETE scenario message: envelope `{body: {type: DELETE, id: 7, content: {}}}`. -/
def deleteEmptyMessage : BusMessage :=
  { type := "rec"
    address := updatesChannel "acme"
    headers := Json.obj []
    body := { type := UpdateType.DELETE
              id := 7
              content := Json.obj [] } }

/-- A sample freshly constructed session for company "acme". -/
def sampleState : ClientState Int :=
  Client.construct "wss://example.biot.io" "tok" "acme" none

/-! The claims. -/

/-- C2 (confirmed): after a callback `cb` is registered, a message delivered on
the tenant channel invokes `cb` exactly once, with the four arguments being the
body type, body id, body content and the accompanying bus error (undefined when
the transport reported none) — in both variants; instantiated on the spec
scenario: envelope PUT/42/{status: ok} with no error yields the single
invocation (PUT, 42, {status: ok}, undefined). -/
theorem dispatch_invokes_registered_callback_once (cb : Nat)
    (error : Option BusError) (message : BusMessage) :
    V1.itemUpdateHandler (some cb) error message =
      ([⟨cb, message.body.type, message.body.id, some message.body.content,
         error⟩], []) ∧
    V2.itemUpdateHandler (some cb) error message =
      ([⟨cb, message.body.type, message.body.id, some message.body.content,
         error⟩], []) ∧
    V2.itemUpdateHandler (some cb) none acmePutMessage =
      ([⟨cb, UpdateType.PUT, 42, some (Json.obj [("status", Json.str "ok")]),
         none⟩], []) :=
  ⟨rfl, rfl, rfl⟩

/-- C3 (confirmed): an exception thrown during the setup performed inside
`connect()` (before the transport reports open) rejects the returned promise
with that exception, in both variants — variant 2 through its explicit
`try`/`catch`, variant 1 through the implicit rejection a JS `Promise`
constructor performs when its executor throws; the promise is neither left
pending nor resolved. -/
theorem connect_setup_throw_rejects (e : String) :
    V1.connectOutcome (some e) = PromiseOutcome.rejected e ∧
    V2.connectOutcome (some e) = PromiseOutcome.rejected e ∧
    V1.connectOutcome (some e) ≠ PromiseOutcome.pending ∧
    V1.connectOutcome (some e) ≠ PromiseOutcome.resolved ∧
    V2.connectOutcome (some e) ≠ PromiseOutcome.pending ∧
    V2.connectOutcome (some e) ≠ PromiseOutcome.resolved := by
  refine ⟨rfl, rfl, ?_, ?_, ?_, ?_⟩ <;> simp [V1.connectOutcome, V2.connectOutcome]

/-- C6 (confirmed): a session holds at most one registered callback; a second
`onItemUpdate` call replaces the first, and every message dispatched afterwards
(in either variant) goes only to the new callback, never to the old one. -/
theorem callback_replacement {α : Type} (st : ClientState α) (cb1 cb2 : Nat)
    (h : cb1 ≠ cb2) (error : Option BusError) (message : BusMessage) :
    ((st.onItemUpdate cb1).onItemUpdate cb2).onItemUpdateCallback = some cb2 ∧
    (∀ inv ∈ (V1.itemUpdateHandler
        ((st.onItemUpdate cb1).onItemUpdate cb2).onItemUpdateCallback
        error message).1, inv.callback = cb2 ∧ inv.callback ≠ cb1) ∧
    (∀ inv ∈ (V2.itemUpdateHandler
        ((st.onItemUpdate cb1).onItemUpdate cb2).onItemUpdateCallback
        error message).1, inv.callback = cb2 ∧ inv.callback ≠ cb1) := by
  refine ⟨rfl, ?_, ?_⟩ <;>
    · intro inv hinv
      simp only [ClientState.onItemUpdate, V1.itemUpdateHandler,
        V2.itemUpdateHandler, List.mem_singleton] at hinv
      subst hinv
      exact ⟨rfl, fun hc => h hc.symm⟩

/-- Witness for C6 at concrete inputs. -/
theorem callback_replacement_witness :
    (1 : Nat) ≠ 2 ∧
    (((sampleState.onItemUpdate 1).onItemUpdate 2).onItemUpdateCallback = some 2 ∧
     (∀ inv ∈ (V1.itemUpdateHandler
         ((sampleState.onItemUpdate 1).onItemUpdate 2).onItemUpdateCallback
         none acmePutMessage).1, inv.callback = 2 ∧ inv.callback ≠ 1) ∧
     (∀ inv ∈ (V2.itemUpdateHandler
         ((sampleState.onItemUpdate 1).onItemUpdate 2).onItemUpdateCallback
         none acmePutMessage).1, inv.callback = 2 ∧ inv.callback ≠ 1)) :=
  ⟨by decide, callback_replacement sampleState 1 2 (by decide) none acmePutMessage⟩

/-- C8 (confirmed): `connect()` passes to the transport constructor exactly the
configuration record mapped field by field from `ClientOptions` under the fixed
renaming, and passes no configuration record when options are absent; the
transport is then told to reconnect and the open hook is installed. -/
theorem connect_options_mapping {α : Type} (url token company : String)
    (o : ClientOptions α) :
    connectSetupActions (Client.construct url token company (some o)) =
      [SetupAction.constructBus (url ++ "?token=" ++ token)
         (some { vertxbus_ping_interval := o.pingInterval
                 vertxbus_reconnect_attempts_max := o.maxReconnectAttempts
                 vertxbus_reconnect_delay_min := o.minReconnectDelay
                 vertxbus_reconnect_delay_max := o.maxReconnectDelay
                 vertxbus_reconnect_exponent := o.reconnectExponentialBackoffFactor
                 vertxbus_randomization_factor := o.randomizationFactor }),
       SetupAction.enableReconnect true,
       SetupAction.installOnopenHook] ∧
    connectSetupActions (Client.construct url token company
        (none : Option (ClientOptions α))) =
      [SetupAction.constructBus (url ++ "?token=" ++ token) none,
       SetupAction.enableReconnect true,
       SetupAction.installOnopenHook] :=
  ⟨rfl, rfl⟩

/-- C9 (confirmed): constructing a session stores exactly
`baseUrl ++ "?token=" ++ token` as the connection url together with the given
company and options, holds no transport handle and no callback, and is a total
pure value construction (the variant 2 constructor; the factory of variant 1
builds the same url on a successful decrypt). -/
theorem construct_stores_url_company_options {α : Type}
    (baseUrl token company : String) (options : Option (ClientOptions α))
    (payload : JwtPayload) :
    Client.construct baseUrl token company options =
      { url := baseUrl ++ "?token=" ++ token
        company := some company
        options := options
        bus := none
        onItemUpdateCallback := none } ∧
    Client.create baseUrl token options (DecryptOutcome.ok payload) =
      Except.ok { url := baseUrl ++ "?token=" ++ token
                  company := payload.company
                  options := options
                  bus := none
                  onItemUpdateCallback := none } :=
  ⟨rfl, rfl⟩

/-- C10 (confirmed): the content argument handed to the callback is always the
body content of the envelope, whatever the update type; in particular a DELETE
message carrying content `{}` yields the defined value `{}` (not undefined),
in both variants. -/
theorem dispatch_content_independent_of_type (cb : Nat)
    (error : Option BusError) (t : UpdateType) (i : Int) (content : Json)
    (mt addr : String) (hdrs : Json) :
    (V1.itemUpdateHandler (some cb) error
        ⟨mt, addr, hdrs, ⟨t, i, content⟩⟩).1 =
      [⟨cb, t, i, some content, error⟩] ∧
    (V2.itemUpdateHandler (some cb) error
        ⟨mt, addr, hdrs, ⟨t, i, content⟩⟩).1 =
      [⟨cb, t, i, some content, error⟩] ∧
    (V1.itemUpdateHandler (some cb) none deleteEmptyMessage).1 =
      [⟨cb, UpdateType.DELETE, 7, some (Json.obj []), none⟩] ∧
    (V2.itemUpdateHandler (some cb) none deleteEmptyMessage).1 =
      [⟨cb, UpdateType.DELETE, 7, some (Json.obj []), none⟩] ∧
    (some (Json.obj []) : Option Json) ≠ none :=
  ⟨rfl, rfl, rfl, rfl, by simp⟩

/-- C1 counterexample: in variant 1 the `onopen` hook of company "acme" issues
the resolve call at position 0, before any handler registration, so the
claimed ordering fails on the code. -/
theorem connect_resolve_order_v1_counterexample :
    ¬ resolvesOnlyAfterRegistration "acme" (V1.onopenActions "acme") := by
  intro h
  obtain ⟨j, hj, -⟩ := h 0 rfl
  exact Nat.not_lt_zero j hj

/-- C1 (corrected): in variant 2, `connect()` resolves only after the handler
for `items.updates.<company>` has been registered, and resolves exactly once
per open notification; in variant 1 the resolve call is issued first and the
registration second, within the same open notification. -/
theorem connect_resolves_only_after_registration_v2 (company : String) :
    resolvesOnlyAfterRegistration company (V2.onopenActions company) ∧
    resolveCount (V2.onopenActions company) = 1 ∧
    V1.onopenActions company =
      [BusAction.resolveConnect,
       BusAction.registerHandler (updatesChannel company)] := by
  refine ⟨?_, rfl, rfl⟩
  intro i hi
  match i with
  | 0 => simp [V2.onopenActions] at hi
  | 1 => exact ⟨0, Nat.zero_lt_one, rfl⟩
  | (n + 2) => simp [V2.onopenActions] at hi

/-- C4 counterexample: variant 1 `disconnect()` on a session holding no
transport handle does not report not-connected; it crashes with a TypeError
from dereferencing the absent handle. -/
theorem disconnect_without_bus_v1_counterexample :
    V1.disconnect none ≠ DisconnectOutcome.reportedNotConnected ∧
    V1.disconnect none =
      DisconnectOutcome.crashed "TypeError: cannot read properties of undefined" :=
  ⟨by simp [V1.disconnect], rfl⟩

/-- C4 (corrected): on a session holding no transport handle, variant 2
`disconnect()` reports the not-connected condition and returns normally,
while variant 1 throws a TypeError by dereferencing the absent handle. -/
theorem disconnect_without_bus :
    V2.disconnect none = DisconnectOutcome.reportedNotConnected ∧
    V1.disconnect none =
      DisconnectOutcome.crashed "TypeError: cannot read properties of undefined" :=
  ⟨rfl, rfl⟩

/-- C5 counterexample: a token that decrypts successfully with a valid issuer
but whose payload lacks the company claim does NOT abort construction —
`create` returns a session whose company is undefined. -/
theorem create_missing_company_counterexample :
    Client.create (α := Int) "wss://example.biot.io" "tok" none
        (DecryptOutcome.ok ⟨none⟩) =
      Except.ok { url := "wss://example.biot.io?token=tok"
                  company := none
                  options := none
                  bus := none
                  onItemUpdateCallback := none } :=
  rfl

/-- C5 (corrected): a failed decryption or issuer check aborts client
construction with that error and produces no session; but a successfully
decrypted payload is never checked for the company claim — `create` always
returns a session carrying whatever (possibly undefined) company the payload
held. -/
theorem create_decrypt_failure_aborts {α : Type} (url token : String)
    (options : Option (ClientOptions α)) (e : String) (payload : JwtPayload) :
    Client.create url token options (DecryptOutcome.failed e) =
      Except.error e ∧
    Client.create url token options (DecryptOutcome.ok payload) =
      Except.ok { url := url ++ "?token=" ++ token
                  company := payload.company
                  options := options
                  bus := none
                  onItemUpdateCallback := none } :=
  ⟨rfl, rfl⟩

/-- C7 counterexample: in variant 1 a message delivered with no registered
callback is discarded with no report at all — the claimed report through the
diagnostic channel never happens. -/
theorem unregistered_dispatch_v1_counterexample :
    ¬ ((V1.itemUpdateHandler none none acmePutMessage).1 = [] ∧
       (V1.itemUpdateHandler none none acmePutMessage).2 ≠ []) := by
  intro h
  exact h.2 rfl

/-- C7 (corrected): a message delivered while no callback is registered is
dropped without being invoked, queued or thrown in both variants; variant 2
reports the condition through `console.error`, while variant 1 drops it
silently with no report. -/
theorem unregistered_dispatch (error : Option BusError) (message : BusMessage) :
    V2.itemUpdateHandler none error message =
      ([], ["No callback was registered for item update"]) ∧
    V1.itemUpdateHandler none error message = ([], []) :=
  ⟨rfl, rfl⟩

end EventBusClient
